import Mathlib

/-!
# Verification of the otp-auth credential lifecycle engine

Shallow embedding of the core of the `otp-auth` Go service: the phone-number
and session-id value objects, the Redis-backed OTP/rate-limit store, the
Postgres-backed user and refresh-token repositories, and the four use cases
(send-OTP, login, refresh, logout), together with the HTTP rate-limit
middleware that guards the send-OTP route.

Modelling conventions:
* Go strings are Lean `String`s; machine time (`time.Time`) is a `Nat` tick
  passed explicitly as `now`; durations are `Nat` ticks.
* The two stores are explicit values (association lists) threaded through
  every operation; Redis TTLs are modelled as absolute deadlines checked
  against `now` on read (an entry whose deadline has passed behaves as
  absent, exactly like an expired Redis key).
* Cryptographic primitives live behind narrow interfaces in the source
  (`HashService`, `JWTService`, `crypto/rand`); they are modelled
  symbolically: a bcrypt digest records its salt, cost and plaintext
  (`bcrypt.GenerateFromPassword` draws a fresh random salt, so two calls on
  the same input differ), a SHA-256 digest records its plaintext
  (deterministic), and the two are distinct constructors because their
  string formats are disjoint (`$2a$...` versus lowercase hex).  Random
  draws (session ids, OTP codes, token ids, salts) are explicit arguments,
  and JWT signing is an explicit function argument, mirroring the
  dependency injection in `cmd` wiring.
-/

namespace OtpAuth

/-! ## Error taxonomy (`pkg/errors/custom_errors.go`) -/

/-- The `ErrorType` constants of `pkg/errors/custom_errors.go`. -/
inductive ErrType where
  | validationErr
  | notFound
  | unauthorized
  | forbiddenErr
  | rateLimit
  | internalErr
  | conflictErr
  | goneErr
deriving DecidableEq, Repr

/-- `CustomError`: a type, a message, and the wrapped cause (the `Cause
error` field), flattened to the cause's own type and message — no code
path in the repository wraps deeper than one level.  `Details` is derived
from the cause in the Go constructors and is not modelled separately. -/
structure CError where
  type : ErrType
  message : String
  cause : Option (ErrType × String)
deriving DecidableEq, Repr

/-- The one-level flattening of an error used as a `cause` argument. -/
def CError.asCause (e : CError) : Option (ErrType × String) :=
  some (e.type, e.message)

/-- `errors.NewValidationError` (cause dropped when absent). -/
def newValidationError (msg : String) (cause : Option (ErrType × String)) : CError :=
  ⟨.validationErr, msg, cause⟩

/-- `errors.NewNotFoundError`. -/
def newNotFoundError (msg : String) (cause : Option (ErrType × String)) : CError :=
  ⟨.notFound, msg, cause⟩

/-- `errors.NewUnauthorizedError`. -/
def newUnauthorizedError (msg : String) (cause : Option (ErrType × String)) : CError :=
  ⟨.unauthorized, msg, cause⟩

/-- `errors.NewInternalError`. -/
def newInternalError (msg : String) (cause : Option (ErrType × String)) : CError :=
  ⟨.internalErr, msg, cause⟩

/-- `Except.isOk` specialised to our error type. -/
def exOk {α : Type} : Except CError α → Bool
  | .ok _ => true
  | .error _ => false

/-- The `ErrType` of a failed result, `none` on success. -/
def exErrType {α : Type} : Except CError α → Option ErrType
  | .ok _ => none
  | .error e => some e.type

/-! ## Symbolic digests (`bcrypt_hash_service.go`)

`BcryptHashService.Hash`/`HashPassword`/`HashOTP` call
`bcrypt.GenerateFromPassword`, which draws a fresh random salt and yields a
modular-crypt string `$2a$<cost>$<salt><checksum>`.
`BcryptHashService.HashRefreshToken` is `hex(sha256(token))`, a
deterministic 64-char lowercase-hex string.  The two output formats are
disjoint, which the two constructors capture. -/

inductive Digest where
  | bcrypt (salt : Nat) (cost : Nat) (plain : String)
  | sha256 (plain : String)
deriving DecidableEq, Repr

/-- `bcrypt.CompareHashAndPassword` succeeds exactly when the digest was
produced from the same plaintext (any salt/cost). -/
def bcryptMatches (digest : Digest) (plain : String) : Bool :=
  match digest with
  | .bcrypt _ _ p => p == plain
  | .sha256 _ => false

/-- `BcryptHashService.HashRefreshToken`: empty input is a
`ValidationError`; otherwise the SHA-256 digest. -/
def hashRefreshToken (token : String) : Except CError Digest :=
  if token = "" then
    .error (newValidationError "Token cannot be empty" none)
  else
    .ok (.sha256 token)

/-- `BcryptHashService.HashOTP`: empty input is a `ValidationError`;
otherwise a bcrypt digest at cost `min cost 8` with the supplied fresh
salt. -/
def hashOTP (otp : String) (cost salt : Nat) : Except CError Digest :=
  if otp = "" then
    .error (newValidationError "OTP cannot be empty" none)
  else
    .ok (.bcrypt salt (min cost 8) otp)

/-- `BcryptHashService.VerifyOTP`: empty code is a `ValidationError`,
a non-matching digest is `ValidationError "Invalid OTP"`. (The Go
`hash == ""` guard cannot fire here because digests are structured.) -/
def verifyOTP (otp : String) (digest : Digest) : Except CError Unit :=
  if otp = "" then
    .error (newValidationError "OTP cannot be empty" none)
  else if bcryptMatches digest otp then
    .ok ()
  else
    .error (newValidationError "Invalid OTP" none)

/-- `BcryptHashService.Hash` = `HashPassword`: empty input is a
`ValidationError`; otherwise a bcrypt digest with a fresh salt. -/
def hashPlain (plaintext : String) (cost salt : Nat) : Except CError Digest :=
  if plaintext = "" then
    .error (newValidationError "Password cannot be empty" none)
  else
    .ok (.bcrypt salt cost plaintext)

/-! ## Value objects (`phone_number.go`, `session_id.go`)

String scanning is carried out on `List Char` so that the regular
expressions of the source translate to structural pattern matches. -/

/-- ASCII / common whitespace, the cases of `unicode.IsSpace` that can
appear in the inputs we consider (`strings.TrimSpace`). -/
def isSpaceChar (c : Char) : Bool :=
  c == ' ' || c == '\t' || c == '\n' || c == '\r'

/-- `strings.TrimSpace` on the character list. -/
def trimChars (l : List Char) : List Char :=
  ((l.dropWhile isSpaceChar).reverse.dropWhile isSpaceChar).reverse

/-- RE2 `\d`: an ASCII digit. -/
def isDigitChar (c : Char) : Bool :=
  '0' ≤ c && c ≤ '9'

/-- The suffix `9\d{9}` of the international pattern. -/
def tailNineDigits : List Char → Bool
  | '9' :: ds => ds.length == 9 && ds.all isDigitChar
  | _ => false

/-- `internationalPattern = ^\+\d{1,3}9\d{9}$`, applied to the part after
the leading `+`: some country-code length `k ∈ {1,2,3}` of digits followed
by `9\d{9}` (RE2 reports a match when any split matches). -/
def intlAfterPlus (l : List Char) : Bool :=
  (l.length == 11 && (l.take 1).all isDigitChar && tailNineDigits (l.drop 1)) ||
  (l.length == 12 && (l.take 2).all isDigitChar && tailNineDigits (l.drop 2)) ||
  (l.length == 13 && (l.take 3).all isDigitChar && tailNineDigits (l.drop 3))

/-- `localPattern = ^09\d{9}$`. -/
def matchLocal : List Char → Bool
  | '0' :: '9' :: ds => ds.length == 9 && ds.all isDigitChar
  | _ => false

/-- `validatePhoneNumber`: `+`-prefixed strings must match the
international pattern, `0`-prefixed strings the local pattern, anything
else is rejected. -/
def validatePhoneChars : List Char → Bool
  | '+' :: rest => intlAfterPlus rest
  | '0' :: rest => matchLocal ('0' :: rest)
  | _ => false

/-- `NewPhoneNumber` on the character list: trim, reject empty, validate,
then normalise a local `0...` number to `+98...`. -/
def newPhoneChars (l : List Char) : Option (List Char) :=
  let t := trimChars l
  if t.isEmpty then none
  else if validatePhoneChars t then
    match t with
    | '0' :: rest => some ('+' :: '9' :: '8' :: rest)
    | _ => some t
  else none

/-- `valueobjects.NewPhoneNumber`.  The Go function returns
`(PhoneNumber, error)`; the error text is never inspected by callers, so
the failure is an `Option`. -/
def NewPhoneNumber (phone : String) : Option String :=
  (newPhoneChars phone.toList).map fun l => ⟨l⟩

/-- `PhoneNumber.String()`: prepend `+98` to a still-local value,
otherwise the identity. -/
def phoneToString (p : String) : String :=
  match p.toList with
  | '0' :: rest => ⟨'+' :: '9' :: '8' :: rest⟩
  | _ => p

/-- A hex digit as accepted by `encoding/hex.DecodeString`. -/
def isHexChar (c : Char) : Bool :=
  ('0' ≤ c && c ≤ '9') || ('a' ≤ c && c ≤ 'f') || ('A' ≤ c && c ≤ 'F')

/-- `valueobjects.NewSessionIDFromString`: trim, reject empty, require
exactly 64 characters that hex-decode (64 is even, so `hex.DecodeString`
succeeds exactly when every character is a hex digit). -/
def newSessionIDFromString (sessionID : String) : Option String :=
  let t := trimChars sessionID.toList
  if t.isEmpty then none
  else if t.length == 64 && t.all isHexChar then some ⟨t⟩
  else none

/-! ## Cache store (`redis/otp_repository.go`)

Redis keys carry a TTL; an entry is live at time `now` exactly when
`now < deadline`.  A `GET` on an expired key behaves like an absent key
(`redis.Nil`). -/

/-- The payload stored at `otp:<phone>`: the value string
`<sessionID>-<hashedCode>` holds these two components (the session id is
hex and a bcrypt digest contains no `-`, so the split in
`OTPRepository.Get` recovers exactly this pair). -/
structure OtpEntry where
  sessionId : String
  hashedCode : Digest
  deadline : Nat
deriving DecidableEq, Repr

/-- A rate-limit counter at `rate_limit:<key>`. -/
structure Counter where
  count : Nat
  deadline : Nat
deriving DecidableEq, Repr

abbrev OtpStore := List (String × OtpEntry)
abbrev CounterStore := List (String × Counter)

/-- `GetRedisKey`. -/
def otpRedisKey (phoneNumber : String) : String :=
  "otp:" ++ phoneNumber

/-- Redis `SET key value EX ttl`: overwrite any previous entry. -/
def otpSet (s : OtpStore) (key : String) (sessionId : String)
    (hashedCode : Digest) (ttl now : Nat) : OtpStore :=
  (key, ⟨sessionId, hashedCode, now + ttl⟩) :: s.filter (fun kv => kv.1 ≠ key)

/-- Redis `GET`, `nil` when absent or expired (`OTPRepository.Get` maps
`redis.Nil` to `NotFoundError "OTP not found or expired"`; the caller only
inspects presence, so the result is an `Option`). -/
def otpGet (s : OtpStore) (key : String) (now : Nat) : Option OtpEntry :=
  match s.find? (fun kv => kv.1 = key) with
  | some (_, e) => if now < e.deadline then some e else none
  | none => none

/-- Redis `DEL` (`OTPRepository.Delete`). -/
def otpDelete (s : OtpStore) (key : String) : OtpStore :=
  s.filter (fun kv => kv.1 ≠ key)

/-- The value Redis `GET` yields for a counter key: absent and expired
keys read as 0 (`RateLimiter.CheckAndIncrement` maps `redis.Nil` to
count 0). -/
def counterRead (s : CounterStore) (key : String) (now : Nat) : Nat :=
  match s.find? (fun kv => kv.1 = key) with
  | some (_, c) => if now < c.deadline then c.count else 0
  | none => 0

/-- The pipelined `INCR key; EXPIRE key window` pair: `INCR` on an absent
or expired key restarts at 1, and `EXPIRE` always resets the deadline. -/
def counterIncrExpire (s : CounterStore) (key : String) (window now : Nat) : CounterStore :=
  (key, ⟨counterRead s key now + 1, now + window⟩) :: s.filter (fun kv => kv.1 ≠ key)

/-- `RateLimiter.CheckAndIncrement`: read the count (a separate `GET`),
reject without incrementing when it already meets the limit, otherwise
run the increment pipeline and report `count + 1`. -/
def checkAndIncrement (s : CounterStore) (key : String) (limit window now : Nat) :
    CounterStore × Bool × Nat :=
  let redisKey := "rate_limit:" ++ key
  let count := counterRead s redisKey now
  if count ≥ limit then
    (s, false, count)
  else
    (counterIncrExpire s redisKey window now, true, count + 1)

/-! ### The two store commands of `CheckAndIncrement` as separate steps

`CheckAndIncrement` issues two independent Redis commands: the `GET` and
the `INCR`/`EXPIRE` pipeline.  Interleaved executions of two callers are
runs of this per-caller step machine against the shared store. -/

inductive RLThread where
  | start
  | afterRead (v : Nat)
  | finished (allowed : Bool) (count : Nat)
deriving DecidableEq, Repr

/-- One store round-trip of a caller running `CheckAndIncrement key limit
window`: first the `GET`, then the decision and (when allowed) the
increment pipeline. -/
def rlThreadStep (t : RLThread) (s : CounterStore) (key : String)
    (limit window now : Nat) : RLThread × CounterStore :=
  let redisKey := "rate_limit:" ++ key
  match t with
  | .start => (.afterRead (counterRead s redisKey now), s)
  | .afterRead v =>
      if v ≥ limit then (.finished false v, s)
      else (.finished true (v + 1), counterIncrExpire s redisKey window now)
  | .finished a c => (.finished a c, s)

/-! ## Durable store (`postgres/` repositories)

`refresh_tokens(id, user_id, session_id, token_hash, created_at,
expires_at, revoked_at NULL)` — the schema used by every query in the
token repository; there is no `last_used` or `revoke_reason` column. -/

structure TokenRow where
  id : String
  userId : String
  sessionId : String
  tokenHash : Digest
  createdAt : Nat
  expiresAt : Nat
  revokedAt : Option Nat
deriving DecidableEq, Repr

structure UserRow where
  id : String
  phone : String
  scope : String
deriving DecidableEq, Repr

abbrev TokenDB := List TokenRow
abbrev UserDB := List UserRow

/-- The in-memory `entities.RefreshToken` (richer than the table: it also
carries `LastUsed`, `Revoked`, `RevokeReason`). -/
structure RefreshTokenEntity where
  id : String
  userId : String
  sessionId : String
  tokenHash : Digest
  createdAt : Nat
  expiresAt : Nat
  lastUsed : Option Nat
  revoked : Bool
  revokedAt : Option Nat
  revokeReason : String
deriving DecidableEq, Repr

/-- How every `SELECT` in the token repository materialises a row: scan the
seven columns and set `Revoked` from `revoked_at IS NOT NULL`; `LastUsed`
and `RevokeReason` are never read back and keep their zero values. -/
def rowToEntity (r : TokenRow) : RefreshTokenEntity :=
  { id := r.id, userId := r.userId, sessionId := r.sessionId
    tokenHash := r.tokenHash, createdAt := r.createdAt, expiresAt := r.expiresAt
    lastUsed := none, revoked := r.revokedAt.isSome, revokedAt := r.revokedAt
    revokeReason := "" }

/-- `entities.RefreshToken.IsValid`: not expired (`time.Now().After` is a
strict comparison) and not revoked. -/
def entityIsValid (e : RefreshTokenEntity) (now : Nat) : Bool :=
  !(decide (now > e.expiresAt)) && !e.revoked

/-- `TokenRepository.GetByTokenHashAndSessionID`
(`WHERE token_hash = $1 AND session_id = $2`; `token_hash` is unique, so
`QueryRow`'s first row is the only row). Absent → `NotFoundError`. -/
def getByTokenHashAndSessionID (db : TokenDB) (tokenHash : Digest)
    (sessionID : String) : Option RefreshTokenEntity :=
  (db.find? fun r => r.tokenHash = tokenHash ∧ r.sessionId = sessionID).map rowToEntity

/-- `TokenRepository.Create` (`INSERT INTO refresh_tokens ...`). -/
def tokenCreate (db : TokenDB) (r : TokenRow) : TokenDB :=
  db ++ [r]

/-- `TokenRepository.RevokeByTokenHashAndSessionID`:
`UPDATE ... SET revoked_at = now WHERE token_hash = _ AND session_id = _
AND revoked_at IS NULL`; zero affected rows is
`NotFoundError "Refresh token not found or already revoked"`. -/
def revokeByTokenHashAndSessionID (db : TokenDB) (tokenHash : Digest)
    (sessionID : String) (now : Nat) : TokenDB × Except CError Unit :=
  let hit := fun (r : TokenRow) =>
    r.tokenHash = tokenHash ∧ r.sessionId = sessionID ∧ r.revokedAt = none
  let db' := db.map fun r => if hit r then { r with revokedAt := some now } else r
  if db.any (fun r => decide (hit r)) then (db', .ok ())
  else (db', .error (newNotFoundError "Refresh token not found or already revoked" none))

/-- `TokenRepository.RevokeByTokenHash` (same update without the
session-id condition; the `reason` argument is ignored — the schema has no
reason column). -/
def revokeByTokenHash (db : TokenDB) (tokenHash : Digest) (now : Nat) :
    TokenDB × Except CError Unit :=
  let hit := fun (r : TokenRow) => r.tokenHash = tokenHash ∧ r.revokedAt = none
  let db' := db.map fun r => if hit r then { r with revokedAt := some now } else r
  if db.any (fun r => decide (hit r)) then (db', .ok ())
  else (db', .error (newNotFoundError "Refresh token not found or already revoked" none))

/-- `TokenRepository.Update`:
`UPDATE refresh_tokens SET user_id = $2, session_id = $3, token_hash = $4,
expires_at = $5, revoked_at = $6 WHERE id = $1` — it writes `revoked_at`
from the entity (NULL when the entity's `RevokedAt` is nil) and does not
touch any other column; zero affected rows is `NotFoundError`. -/
def tokenUpdate (db : TokenDB) (e : RefreshTokenEntity) : TokenDB × Except CError Unit :=
  let db' := db.map fun r =>
    if r.id = e.id then
      { r with userId := e.userId, sessionId := e.sessionId
               tokenHash := e.tokenHash, expiresAt := e.expiresAt
               revokedAt := e.revokedAt }
    else r
  if db.any (fun r => r.id = e.id) then (db', .ok ())
  else (db', .error (newNotFoundError "Refresh token not found" none))

/-- `UserRepository.GetByPhoneNumber` (`WHERE phone_number = $1`). -/
def userGetByPhone (db : UserDB) (phone : String) : Option UserRow :=
  db.find? fun u => u.phone = phone

/-- `UserRepository.GetByID`. -/
def userGetByID (db : UserDB) (id : String) : Option UserRow :=
  db.find? fun u => u.id = id

/-- `UserRepository.Create` (`INSERT INTO users ...`). -/
def userCreate (db : UserDB) (u : UserRow) : UserDB :=
  db ++ [u]

/-! ## JWT claims (`ports/services/jwt_service.go`)

The ECDSA signing implementation is an external primitive behind the
`JWTService` interface; use cases receive the signing function as an
argument (`sign`), modelling its success path. -/

structure JWTClaims where
  subject : String
  clientId : String
  scopes : List String
  issuedAt : Nat
  expiresAt : Nat
  issuer : String
  tokenId : String
deriving DecidableEq, Repr

/-- `services.NewJWTClaims`. -/
def mkJWTClaims (userID clientID : String) (scopes : List String)
    (ttl : Nat) (issuer tokenID : String) (now : Nat) : JWTClaims :=
  ⟨userID, clientID, scopes, now, now + ttl, issuer, tokenID⟩

/-! ## System state and use cases -/

/-- The two backing stores: the Redis data (OTP challenges, rate-limit
counters) and the Postgres data (users, refresh tokens). -/
structure Sys where
  otps : OtpStore
  counters : CounterStore
  users : UserDB
  tokens : TokenDB
deriving DecidableEq, Repr

/-- Configuration: TTLs in ticks, bcrypt cost. -/
structure Cfg where
  accessTTL : Nat
  refreshTTL : Nat
  otpTTL : Nat
  cost : Nat
deriving Repr

/-- The random draws `SendOTPUseCase.Execute` performs: the minted session
id (used when the request carries none), the OTP code from
`utils.GenerateOTP`, and the bcrypt salt of `HashOTP`. -/
structure SendFresh where
  sessionId : String
  otpCode : String
  salt : Nat
deriving Repr

/-- The random draws of `LoginUseCase.Execute`: the access-token `jti`,
the opaque refresh token, the new user id, the new token-row id. -/
structure LoginFresh where
  accessTokenId : String
  refreshToken : String
  userId : String
  rowId : String
deriving Repr

/-- The random draws of `RefreshUseCase.Execute`. -/
structure RefreshFresh where
  accessTokenId : String
  newRefreshToken : String
  newRowId : String
deriving Repr

structure SendOtpReq where
  phoneNumber : String
  sessionID : String
deriving Repr

structure LoginReq where
  phoneNumber : String
  otp : String
deriving Repr

structure RefreshReq where
  refreshToken : String
  sessionID : String
deriving Repr

structure LogoutReq where
  refreshToken : String
  sessionID : String
deriving Repr

structure SendOtpResp where
  message : String
  sessionID : String
deriving DecidableEq, Repr

structure TokenPairResp where
  message : String
  accessToken : String
  refreshToken : String
  expiresAt : Nat
  refreshExpiresAt : Nat
deriving DecidableEq, Repr

/-- `ConsoleOTPSender.SendOTP`: fails only on an empty phone number or
code. -/
def consoleSendOTP (phoneNumber code : String) : Except CError Unit :=
  if phoneNumber = "" then
    .error (newValidationError "Phone number is required" none)
  else if code = "" then
    .error (newValidationError "OTP code is required" none)
  else
    .ok ()

/-- The scope list both token-issuing use cases build from the user row:
`[scope]` when non-empty, else the default `["user"]`. -/
def scopesOf (u : UserRow) : List String :=
  if u.scope ≠ "" then [u.scope] else ["user"]

/-- `SendOTPUseCase.Execute` (the use case itself performs no rate
limiting — that lives in the HTTP middleware): validate the phone, resolve
or mint the session id, generate and hash the OTP, store the challenge
under `otp:<canonical phone>` (overwriting any previous one), dispatch the
plaintext code. -/
def sendOtpExecute (sys : Sys) (req : SendOtpReq) (cfg : Cfg) (now : Nat)
    (fresh : SendFresh) : Sys × Except CError SendOtpResp :=
  match NewPhoneNumber req.phoneNumber with
  | none => (sys, .error (newValidationError "Invalid phone number format" none))
  | some phone =>
    let sid? : Except CError String :=
      if req.sessionID ≠ "" then
        match newSessionIDFromString req.sessionID with
        | none => .error (newValidationError "Invalid session ID format" none)
        | some sid => .ok sid
      else .ok fresh.sessionId
    match sid? with
    | .error e => (sys, .error e)
    | .ok sid =>
      match hashOTP fresh.otpCode cfg.cost fresh.salt with
      | .error e => (sys, .error (newInternalError "Failed to hash OTP" e.asCause))
      | .ok hashedOTP =>
        let otps' := otpSet sys.otps (otpRedisKey (phoneToString phone)) sid hashedOTP cfg.otpTTL now
        match consoleSendOTP (phoneToString phone) fresh.otpCode with
        | .error e => ({ sys with otps := otps' }, .error (newInternalError "Failed to send OTP" e.asCause))
        | .ok () =>
          ({ sys with otps := otps' }, .ok ⟨"OTP sent successfully", sid⟩)

/-- `LoginUseCase.Execute`: fetch the challenge (absence is wrapped as
`UnauthorizedError "Invalid session ID"`), verify the code (any failure is
wrapped as `UnauthorizedError "Invalid OTP"`), parse and compare the
session id, delete the consumed challenge (failure ignored), upsert the
user, mint and persist the token pair.  `req.Validate()` repeats the
phone-number parse, so its failure coincides with the parse below. -/
def loginExecute (sys : Sys) (req : LoginReq) (sessionID : String) (cfg : Cfg)
    (now : Nat) (fresh : LoginFresh) (sign : JWTClaims → String) :
    Sys × Except CError TokenPairResp :=
  match NewPhoneNumber req.phoneNumber with
  | none => (sys, .error (newValidationError "Invalid request" none))
  | some phone =>
    match otpGet sys.otps (otpRedisKey (phoneToString phone)) now with
    | none =>
        (sys, .error (newUnauthorizedError "Invalid session ID"
          (some (.notFound, "OTP not found or expired"))))
    | some entry =>
      match verifyOTP req.otp entry.hashedCode with
      | .error e => (sys, .error (newUnauthorizedError "Invalid OTP" e.asCause))
      | .ok () =>
        match newSessionIDFromString sessionID with
        | none => (sys, .error (newValidationError "Invalid session ID format" none))
        | some sid =>
          if entry.sessionId ≠ sid then
            (sys, .error (newUnauthorizedError "Session ID mismatch" none))
          else
            let otps1 := otpDelete sys.otps (otpRedisKey (phoneToString phone))
            let (users1, user) :=
              match userGetByPhone sys.users (phoneToString phone) with
              | some u => (sys.users, u)
              | none =>
                  let u : UserRow := ⟨fresh.userId, phoneToString phone, "user"⟩
                  (userCreate sys.users u, u)
            let claims := mkJWTClaims user.id "otp-auth-client" (scopesOf user)
              cfg.accessTTL "otp-auth" fresh.accessTokenId now
            let accessToken := sign claims
            match hashRefreshToken fresh.refreshToken with
            | .error e =>
                ({ sys with otps := otps1, users := users1 },
                 .error (newInternalError "Failed to hash refresh token" e.asCause))
            | .ok hashed =>
              let row : TokenRow :=
                ⟨fresh.rowId, user.id, sid, hashed, now, now + cfg.refreshTTL, none⟩
              ({ sys with otps := otps1, users := users1, tokens := tokenCreate sys.tokens row },
               .ok ⟨"Login successful", accessToken, fresh.refreshToken,
                    now + cfg.accessTTL, now + cfg.refreshTTL⟩)

/-- The remainder of `RefreshUseCase.Execute` after the stored token has
been fetched: validity check, user lookup, minting, then — in this order —
revoke the old row *ignoring any error* (the code only logs it), insert
the new row, and write the stale entity back through
`TokenRepository.Update` with `LastUsed` set (also ignoring any error). -/
def refreshFrom (sys : Sys) (stored : RefreshTokenEntity) (tokenHash : Digest)
    (sid : String) (cfg : Cfg) (now : Nat) (fresh : RefreshFresh)
    (sign : JWTClaims → String) : Sys × Except CError TokenPairResp :=
  if !entityIsValid stored now then
    (sys, .error (newUnauthorizedError "Refresh token is expired or revoked" none))
  else
    match userGetByID sys.users stored.userId with
    | none => (sys, .error (newUnauthorizedError "User not found" none))
    | some user =>
      let claims := mkJWTClaims user.id "otp-auth-client" (scopesOf user)
        cfg.accessTTL "otp-auth" fresh.accessTokenId now
      let accessToken := sign claims
      match hashRefreshToken fresh.newRefreshToken with
      | .error e =>
          (sys, .error (newInternalError "Failed to hash new refresh token" e.asCause))
      | .ok hashedNew =>
        let (tokens1, _revokeResult) :=
          revokeByTokenHashAndSessionID sys.tokens tokenHash sid now
        let newRow : TokenRow :=
          ⟨fresh.newRowId, user.id, sid, hashedNew, now, now + cfg.refreshTTL, none⟩
        let tokens2 := tokenCreate tokens1 newRow
        let stale := { stored with lastUsed := some now }
        let (tokens3, _updateResult) := tokenUpdate tokens2 stale
        ({ sys with tokens := tokens3 },
         .ok ⟨"Token refreshed successfully", accessToken, fresh.newRefreshToken,
              now + cfg.accessTTL, now + cfg.refreshTTL⟩)

/-- `RefreshUseCase.Execute`: request validation, session-id parse, hash
of the presented token, row lookup by `(hash, session id)`, then
`refreshFrom`. -/
def refreshExecute (sys : Sys) (req : RefreshReq) (cfg : Cfg) (now : Nat)
    (fresh : RefreshFresh) (sign : JWTClaims → String) :
    Sys × Except CError TokenPairResp :=
  if req.sessionID ≠ "" ∧ (newSessionIDFromString req.sessionID).isNone then
    (sys, .error (newValidationError "Invalid request data" none))
  else
    match newSessionIDFromString req.sessionID with
    | none => (sys, .error (newValidationError "Invalid session ID format" none))
    | some sid =>
      match hashRefreshToken req.refreshToken with
      | .error e => (sys, .error (newInternalError "Failed to hash refresh token" e.asCause))
      | .ok tokenHash =>
        match getByTokenHashAndSessionID sys.tokens tokenHash sid with
        | none =>
            (sys, .error (newUnauthorizedError "Invalid refresh token"
              (some (.notFound, "Refresh token not found"))))
        | some stored => refreshFrom sys stored tokenHash sid cfg now fresh sign

/-- `LogoutUseCase.Execute`: trivially succeed with no token material;
otherwise hash the supplied token with `HashService.Hash` (= bcrypt with a
fresh salt) and revoke by `(hash, session id)` when a session id is
present (cast unvalidated), else by hash alone; a `NotFoundError` from the
revoke is reported as success. -/
def logoutExecute (sys : Sys) (req : LogoutReq) (cfg : Cfg) (now salt : Nat) :
    Sys × Except CError String :=
  if req.refreshToken = "" ∧ req.sessionID = "" then
    (sys, .ok "Logout successful")
  else if req.refreshToken ≠ "" then
    match hashPlain req.refreshToken cfg.cost salt with
    | .error e => (sys, .error (newInternalError "Failed to hash refresh token" e.asCause))
    | .ok tokenHash =>
      let (tokens1, res) :=
        if req.sessionID ≠ "" then
          revokeByTokenHashAndSessionID sys.tokens tokenHash req.sessionID now
        else
          revokeByTokenHash sys.tokens tokenHash now
      match res with
      | .ok () => ({ sys with tokens := tokens1 }, .ok "Logout successful")
      | .error e =>
          if e.type = .notFound then
            ({ sys with tokens := tokens1 }, .ok "Logout successful")
          else
            ({ sys with tokens := tokens1 },
             .error (newInternalError "Failed to revoke refresh token" e.asCause))
  else
    (sys, .ok "Logout successful")

/-! ## Rate-limit middleware on the send-OTP route
(`middleware/rate_limit.go`, wired in `router.go`) -/

/-- The `KeyFunc` of `OtpRateLimit`: the raw `phone_number` string from
the request body, prefixed with `phone:`; empty when the body has none. -/
def otpRateLimitKeyFunc (bodyPhone : String) : String :=
  if bodyPhone ≠ "" then "phone:" ++ bodyPhone else ""

instance {ε α : Type} [DecidableEq ε] [DecidableEq α] :
    DecidableEq (Except ε α) := fun x y =>
  match x, y with
  | .ok a, .ok b =>
      if h : a = b then .isTrue (by rw [h]) else .isFalse (by simp [h])
  | .error a, .error b =>
      if h : a = b then .isTrue (by rw [h]) else .isFalse (by simp [h])
  | .ok _, .error _ => .isFalse (by simp)
  | .error _, .ok _ => .isFalse (by simp)

/-- Outcome of a request through the middleware: a 429
`RATE_LIMIT_ERROR` response, or the handler's (use case's) result. -/
inductive PipeResult where
  | rateLimited (count : Nat)
  | handled (r : Except CError SendOtpResp)
deriving DecidableEq, Repr

/-- A send-OTP request through `OtpRateLimit` + `RateLimit`: an empty key
skips limiting; otherwise `CheckAndIncrement` gates the handler and a
rejected request is answered with HTTP 429 / code `RATE_LIMIT_ERROR`
without reaching the use case. -/
def sendOtpPipeline (sys : Sys) (req : SendOtpReq) (limit window : Nat)
    (cfg : Cfg) (now : Nat) (fresh : SendFresh) : Sys × PipeResult :=
  let key := otpRateLimitKeyFunc req.phoneNumber
  if key = "" then
    let (sys1, r) := sendOtpExecute sys req cfg now fresh
    (sys1, .handled r)
  else
    let (counters1, allowed, count) := checkAndIncrement sys.counters key limit window now
    let sys1 := { sys with counters := counters1 }
    if allowed then
      let (sys2, r) := sendOtpExecute sys1 req cfg now fresh
      (sys2, .handled r)
    else
      (sys1, .rateLimited count)

/-! ## Concrete fixtures used by the claim theorems -/

/-- A well-formed 64-hex-char session id. -/
def sid64 : String := ⟨List.replicate 64 'a'⟩

/-- A refresh-token row as `LoginUseCase` persists it for the opaque token
`"tok1"`: `token_hash` is the SHA-256 digest, not yet revoked, expiring at
tick 100. -/
def row1 : TokenRow := ⟨"r1", "u1", sid64, .sha256 "tok1", 0, 100, none⟩

/-- One user, one live refresh-token row, empty cache. -/
def sysTok : Sys := ⟨[], [], [⟨"u1", "+989123456789", ""⟩], [row1]⟩

/-- Default-ish configuration (ticks): access TTL 10, refresh TTL 100,
OTP TTL 20, bcrypt cost 10. -/
def cfg0 : Cfg := ⟨10, 100, 20, 10⟩

/-- A trivial signing function standing in for `ECDSAJWTService`'s
success path. -/
def signFix : JWTClaims → String := fun _ => "signed-jwt"

/-- The refresh request presenting `"tok1"` under its session. -/
def rreq : RefreshReq := ⟨"tok1", sid64⟩

/-- The entity `GetByTokenHashAndSessionID` returns for `row1`. -/
def stored1 : RefreshTokenEntity := rowToEntity row1

/-- `sysTok`'s token table after one caller's revoke step has won. -/
def tokensAfterRevoke : TokenDB :=
  (revokeByTokenHashAndSessionID sysTok.tokens (.sha256 "tok1") sid64 5).1

/-! ## C1 -/

/-- C1: the claim says that a `Refresh` whose conditional revocation
(`UPDATE ... WHERE ... AND revoked_at IS NULL`) affects zero rows must
fail as a whole, issuing nothing.  The code instead logs and discards the
revoke error (`refresh.go`: "Log error but don't fail the refresh
operation").  Witnessed here on the two-caller race the claim is about:
both callers fetch the same valid row; after the first caller's revoke
wins, the second caller's own revoke affects zero rows
(`NotFoundError "Refresh token not found or already revoked"`), yet its
`Execute` continuation still succeeds and inserts a fresh refresh-token
row — contradicting the claim (and `docs`' "if any row updated, then ...
create a new refresh token"). -/
theorem c1_zero_row_revoke_not_gating :
    -- the row both callers fetched
    getByTokenHashAndSessionID sysTok.tokens (.sha256 "tok1") sid64 = some stored1
    -- the second caller's revoke affects zero rows and reports the error
    ∧ (revokeByTokenHashAndSessionID tokensAfterRevoke (.sha256 "tok1") sid64 5).2
        = .error (newNotFoundError "Refresh token not found or already revoked" none)
    -- ... yet its Execute continuation still succeeds
    ∧ exOk (refreshFrom { sysTok with tokens := tokensAfterRevoke } stored1
        (.sha256 "tok1") sid64 cfg0 5 ⟨"jti2", "tok3", "r3"⟩ signFix).2 = true
    -- ... and a new refresh-token row was issued for the new token
    ∧ (refreshFrom { sysTok with tokens := tokensAfterRevoke } stored1
        (.sha256 "tok1") sid64 cfg0 5 ⟨"jti2", "tok3", "r3"⟩ signFix).1.tokens.any
        (fun r => r.id = "r3" ∧ r.tokenHash = .sha256 "tok3") = true := by
  decide

/-! ## C2 -/

/-- C2: the claim says a revoked row is never un-revoked.  In
`RefreshUseCase.Execute` the revoke step marks the old row
(`revoked_at = now`), but the subsequent
`tokenRepo.Update(storedToken)` — meant only to record `last_used` —
writes `revoked_at` back from the stale pre-revocation entity
(`revoked_at = NULL`), un-revoking the row: after a successful serialized
refresh the old row is active again. -/
theorem c2_refresh_unrevokes_the_old_row :
    -- the revoke step did mark the row revoked
    (revokeByTokenHashAndSessionID sysTok.tokens (.sha256 "tok1") sid64 5).1
      = [{ row1 with revokedAt := some 5 }]
    -- the full refresh succeeds ...
    ∧ exOk (refreshExecute sysTok rreq cfg0 5 ⟨"jti1", "tok2", "r2"⟩ signFix).2 = true
    -- ... and afterwards the old row is NOT revoked any more
    ∧ (refreshExecute sysTok rreq cfg0 5 ⟨"jti1", "tok2", "r2"⟩ signFix).1.tokens.find?
        (fun r => r.id = "r1") = some row1 := by
  decide

/-! ## C3 -/

/-- C3: the claim says that after a successful refresh every later
refresh presenting the original token fails with `UnauthorizedError`.
Because the rotation's trailing `Update` un-revokes the old row (C2), a
second serialized `Refresh` with the very same original
`(refresh token, session id)` succeeds again and issues another pair. -/
theorem c3_original_token_refreshes_again :
    exOk (refreshExecute sysTok rreq cfg0 5 ⟨"jti1", "tok2", "r2"⟩ signFix).2 = true
    ∧ exOk (refreshExecute (refreshExecute sysTok rreq cfg0 5 ⟨"jti1", "tok2", "r2"⟩ signFix).1
        rreq cfg0 6 ⟨"jti2", "tok3", "r3"⟩ signFix).2 = true := by
  decide

/-! ## C4 -/

/-- C4: the claim says a logout presenting the refresh token of a stored
active row revokes that row.  `LogoutUseCase` hashes the supplied token
with `HashService.Hash` — bcrypt with a fresh random salt — while the rows
store `HashRefreshToken` = SHA-256 digests, so the computed hash matches
no row, the revoke affects zero rows (`NotFoundError`), and logout
reports success with the login-time row still active. -/
theorem c4_logout_leaves_the_row_active :
    -- the row for "tok1" was stored under its SHA-256 hash
    hashRefreshToken "tok1" = .ok (.sha256 "tok1")
    -- logout hashes "tok1" with bcrypt instead, which cannot match
    ∧ hashPlain "tok1" cfg0.cost 77 = .ok (.bcrypt 77 10 "tok1")
    ∧ (Digest.bcrypt 77 10 "tok1" ≠ Digest.sha256 "tok1")
    -- logout over the same (token, session) reports success ...
    ∧ (logoutExecute sysTok ⟨"tok1", sid64⟩ cfg0 5 77).2 = .ok "Logout successful"
    -- ... with the whole store untouched: the row is still unrevoked
    ∧ (logoutExecute sysTok ⟨"tok1", sid64⟩ cfg0 5 77).1 = sysTok := by
  decide

/-! ## Helper lemmas -/

/-- Deleting a cache key makes a subsequent `GET` of that key miss. -/
theorem otpGet_delete (s : OtpStore) (key : String) (now : Nat) :
    otpGet (otpDelete s key) key now = none := by
  simp only [otpGet, otpDelete]
  have h : (s.filter (fun kv => kv.1 ≠ key)).find? (fun kv => kv.1 = key) = none := by
    rw [List.find?_eq_none]
    intro x hx
    have := List.of_mem_filter hx
    simpa using this
  rw [h]

/-- A string accepted by `validatePhoneNumber` starts with `+` or `0`. -/
theorem validate_head {t : List Char} (h : validatePhoneChars t = true) :
    (∃ r, t = '+' :: r) ∨ (∃ r, t = '0' :: r) := by
  unfold validatePhoneChars at h
  split at h
  · exact .inl ⟨_, rfl⟩
  · exact .inr ⟨_, rfl⟩
  · exact absurd h (by simp)

/-- Every phone number `NewPhoneNumber` produces is in international form
(leading `+`): local inputs are rewritten, `+`-inputs kept. -/
theorem newPhone_toList_plus {raw p : String} (h : NewPhoneNumber raw = some p) :
    ∃ rest, p.toList = '+' :: rest := by
  unfold NewPhoneNumber newPhoneChars at h
  simp only [Option.map_eq_some'] at h
  obtain ⟨l, hl, rfl⟩ := h
  split at hl
  · exact absurd hl (by simp)
  · split at hl
    · split at hl
      · simp only [Option.some.injEq] at hl
        subst hl
        exact ⟨_, rfl⟩
      · next hv _ hne =>
          simp only [Option.some.injEq] at hl
          subst hl
          rcases validate_head hv with ⟨r, hr⟩ | ⟨r, hr⟩
          · exact ⟨r, by rw [hr]; rfl⟩
          · exact absurd hr (by intro hc; exact hne r hc)
    · exact absurd hl (by simp)

/-- `PhoneNumber.String()` is the identity on `+`-prefixed values. -/
theorem phoneToString_plus {p : String} (h : ∃ rest, p.toList = '+' :: rest) :
    phoneToString p = p := by
  obtain ⟨rest, hr⟩ := h
  unfold phoneToString
  split
  · next heq => rw [hr] at heq; simp at heq
  · rfl

/-- `PhoneNumber.String()` is the identity on every constructed
(already-normalised) phone number. -/
theorem newPhone_toString_self {raw p : String} (h : NewPhoneNumber raw = some p) :
    phoneToString p = p :=
  phoneToString_plus (newPhone_toList_plus h)

/-- A constructed phone number is never the empty string. -/
theorem newPhone_ne_empty {raw p : String} (h : NewPhoneNumber raw = some p) :
    p ≠ "" := by
  obtain ⟨rest, hr⟩ := newPhone_toList_plus h
  intro hc
  rw [hc] at hr
  simp at hr

/-! ## C5 -/

/-- C5: with a live challenge for the phone whose stored digest is a
bcrypt hash of `code` and whose bound session id equals the supplied one,
`Verify-and-Login` succeeds, and immediately repeating the identical
`(phone, code, sessionID)` call against the resulting state fails — the
challenge was deleted from the cache on consumption. -/
theorem c5_otp_single_use (sys : Sys) (cfg : Cfg) (now : Nat)
    (f1 f2 : LoginFresh) (sign : JWTClaims → String)
    (raw phone code sid sidV : String) (entry : OtpEntry) (salt bc : Nat)
    (hphone : NewPhoneNumber raw = some phone)
    (hentry : otpGet sys.otps (otpRedisKey (phoneToString phone)) now = some entry)
    (hhash : entry.hashedCode = .bcrypt salt bc code)
    (hcode : code ≠ "")
    (hsid : newSessionIDFromString sid = some sidV)
    (hmatch : entry.sessionId = sidV)
    (hrt : f1.refreshToken ≠ "") :
    exOk (loginExecute sys ⟨raw, code⟩ sid cfg now f1 sign).2 = true ∧
    exOk (loginExecute (loginExecute sys ⟨raw, code⟩ sid cfg now f1 sign).1
      ⟨raw, code⟩ sid cfg now f2 sign).2 = false := by
  have hverify : verifyOTP code entry.hashedCode = .ok () := by
    rw [hhash]
    simp [verifyOTP, bcryptMatches, hcode]
  have hrt' : hashRefreshToken f1.refreshToken = .ok (.sha256 f1.refreshToken) := by
    simp [hashRefreshToken, hrt]
  have hbase : (loginExecute sys ⟨raw, code⟩ sid cfg now f1 sign).1.otps
        = otpDelete sys.otps (otpRedisKey (phoneToString phone)) ∧
      exOk (loginExecute sys ⟨raw, code⟩ sid cfg now f1 sign).2 = true := by
    simp only [loginExecute, hphone, hentry, hverify, hsid, hmatch, hrt']
    cases huser : userGetByPhone sys.users (phoneToString phone) <;>
      simp [huser, hmatch, exOk]
  obtain ⟨hotps, hok⟩ := hbase
  refine ⟨hok, ?_⟩
  generalize hS : (loginExecute sys ⟨raw, code⟩ sid cfg now f1 sign).1 = S at hotps ⊢
  have hget2 : otpGet S.otps (otpRedisKey (phoneToString phone)) now = none := by
    rw [hotps]; exact otpGet_delete _ _ _
  simp only [loginExecute, hphone, hget2, exOk]

/-- A live challenge at tick 5 (deadline 50) for `+989123456789`,
code `123456` hashed with bcrypt, bound to `sid64`. -/
def chal : OtpEntry := ⟨sid64, .bcrypt 3 8 "123456", 50⟩

/-- A system whose cache holds `chal` and nothing else. -/
def sysChal : Sys := ⟨[("otp:+989123456789", chal)], [], [], []⟩

/-- Fresh values for a concrete login. -/
def lf1 : LoginFresh := ⟨"jti1", "rtok1", "u9", "row9"⟩

def lf2 : LoginFresh := ⟨"jti2", "rtok2", "u10", "row10"⟩

/-- Witness for C5 at a concrete state. -/
theorem c5_otp_single_use_witness :
    exOk (loginExecute sysChal ⟨"+989123456789", "123456"⟩ sid64 cfg0 5 lf1 signFix).2 = true ∧
    exOk (loginExecute (loginExecute sysChal ⟨"+989123456789", "123456"⟩ sid64 cfg0 5 lf1 signFix).1
      ⟨"+989123456789", "123456"⟩ sid64 cfg0 5 lf2 signFix).2 = false :=
  c5_otp_single_use sysChal cfg0 5 lf1 lf2 signFix
    "+989123456789" "+989123456789" "123456" sid64 sid64 chal 3 8
    (by decide) (by decide) (by decide) (by decide) (by decide) (by decide) (by decide)

/-! ## C8 -/

/-- C8 counterexample: with no live challenge for the phone, the
`Verify-and-Login` operation does not fail with `NotFoundError` as the
claim states: `LoginUseCase.Execute` wraps the repository's miss into an
`UnauthorizedError "Invalid session ID"`. -/
theorem c8_counterexample :
    (loginExecute ⟨[], [], [], []⟩ ⟨"+989123456789", "123456"⟩ sid64 cfg0 5 lf1 signFix).2
      = .error (newUnauthorizedError "Invalid session ID"
          (some (.notFound, "OTP not found or expired")))
    ∧ ErrType.unauthorized ≠ ErrType.notFound := by
  decide

/-- C8 amended: for every state with no live challenge for the phone
(never sent, consumed, or expired — all read as an absent key), the
operation fails with `UnauthorizedError "Invalid session ID"` wrapping
the store's `NotFoundError "OTP not found or expired"`, identically in
all three cases. -/
theorem c8_no_challenge_unauthorized (sys : Sys) (cfg : Cfg) (now : Nat)
    (fresh : LoginFresh) (sign : JWTClaims → String)
    (raw phone code sid : String)
    (hphone : NewPhoneNumber raw = some phone)
    (hmiss : otpGet sys.otps (otpRedisKey (phoneToString phone)) now = none) :
    (loginExecute sys ⟨raw, code⟩ sid cfg now fresh sign).2
      = .error (newUnauthorizedError "Invalid session ID"
          (some (.notFound, "OTP not found or expired"))) := by
  simp only [loginExecute, hphone, hmiss]

/-- Witness for C8's amended theorem on the empty state. -/
theorem c8_no_challenge_unauthorized_witness :
    (loginExecute ⟨[], [], [], []⟩ ⟨"+989123456789", "123456"⟩ sid64 cfg0 5 lf1 signFix).2
      = .error (newUnauthorizedError "Invalid session ID"
          (some (.notFound, "OTP not found or expired"))) :=
  c8_no_challenge_unauthorized ⟨[], [], [], []⟩ cfg0 5 lf1 signFix
    "+989123456789" "+989123456789" "123456" sid64 (by decide) (by decide)

/-! ## C9 -/

/-- C9 counterexample: the claim requires the session-mismatch failure to
have the same error class as a wrong-code failure for *every* supplied
session-id value, including malformed ones.  A malformed session id
(here `"abc"`) yields a `ValidationError`, while a wrong code yields an
`UnauthorizedError` — different classes. -/
theorem c9_counterexample :
    exErrType (loginExecute sysChal ⟨"+989123456789", "123456"⟩ "abc" cfg0 5 lf1 signFix).2
      = some .validationErr
    ∧ exErrType (loginExecute sysChal ⟨"+989123456789", "999999"⟩ sid64 cfg0 5 lf1 signFix).2
      = some .unauthorized
    ∧ ErrType.validationErr ≠ ErrType.unauthorized := by
  decide

/-- C9 amended: against a live challenge with a correct code, a
*well-formed* session id that does not match the one bound to the
challenge fails with `UnauthorizedError "Session ID mismatch"` — the same
error class (`UNAUTHORIZED_ERROR`) as a wrong-code failure
(`UnauthorizedError "Invalid OTP"`); a malformed session id instead
fails earlier with a `ValidationError` ("Invalid session ID format"). -/
theorem c9_session_mismatch_shape (sys : Sys) (cfg : Cfg) (now : Nat)
    (fresh : LoginFresh) (sign : JWTClaims → String)
    (raw phone code sid sidV wrong badSid : String) (entry : OtpEntry) (salt bc : Nat)
    (hphone : NewPhoneNumber raw = some phone)
    (hentry : otpGet sys.otps (otpRedisKey (phoneToString phone)) now = some entry)
    (hhash : entry.hashedCode = .bcrypt salt bc code)
    (hcode : code ≠ "")
    (hsid : newSessionIDFromString sid = some sidV)
    (hne : entry.sessionId ≠ sidV)
    (hwrong : wrong ≠ code) (hwne : wrong ≠ "")
    (hbad : newSessionIDFromString badSid = none) :
    -- correct code, well-formed but mismatching session id
    (loginExecute sys ⟨raw, code⟩ sid cfg now fresh sign).2
      = .error (newUnauthorizedError "Session ID mismatch" none)
    -- wrong code (session id not even examined)
    ∧ (loginExecute sys ⟨raw, wrong⟩ sid cfg now fresh sign).2
      = .error (newUnauthorizedError "Invalid OTP" (some (.validationErr, "Invalid OTP")))
    -- malformed session id with a correct code: a different error class
    ∧ (loginExecute sys ⟨raw, code⟩ badSid cfg now fresh sign).2
      = .error (newValidationError "Invalid session ID format" none) := by
  have hverify : verifyOTP code entry.hashedCode = .ok () := by
    rw [hhash]
    simp [verifyOTP, bcryptMatches, hcode]
  have hbadcode : verifyOTP wrong entry.hashedCode
      = .error (newValidationError "Invalid OTP" none) := by
    rw [hhash]
    simp [verifyOTP, bcryptMatches, hwne]
    intro hc
    exact absurd hc.symm hwrong
  refine ⟨?_, ?_, ?_⟩
  · simp only [loginExecute, hphone, hentry, hverify, hsid, hne, if_true]
    simp [hne]
  · simp only [loginExecute, hphone, hentry, hbadcode]
    rfl
  · simp only [loginExecute, hphone, hentry, hverify, hbad]

/-- Witness for C9's amended theorem at a concrete state. -/
theorem c9_session_mismatch_shape_witness :
    (loginExecute sysChal ⟨"+989123456789", "123456"⟩ ⟨List.replicate 64 'b'⟩ cfg0 5 lf1 signFix).2
      = .error (newUnauthorizedError "Session ID mismatch" none)
    ∧ (loginExecute sysChal ⟨"+989123456789", "999999"⟩ ⟨List.replicate 64 'b'⟩ cfg0 5 lf1 signFix).2
      = .error (newUnauthorizedError "Invalid OTP" (some (.validationErr, "Invalid OTP")))
    ∧ (loginExecute sysChal ⟨"+989123456789", "123456"⟩ "abc" cfg0 5 lf1 signFix).2
      = .error (newValidationError "Invalid session ID format" none) :=
  c9_session_mismatch_shape sysChal cfg0 5 lf1 signFix
    "+989123456789" "+989123456789" "123456" ⟨List.replicate 64 'b'⟩ ⟨List.replicate 64 'b'⟩
    "999999" "abc" chal 3 8
    (by decide) (by decide) (by decide) (by decide) (by decide) (by decide)
    (by decide) (by decide) (by decide)

/-! ## C7 -/

/-- Running a caller's two store round-trips back to back (no
interleaving) is exactly `CheckAndIncrement` — the step decomposition is
faithful to the sequential function. -/
theorem rlThread_two_steps (s : CounterStore) (key : String) (limit window now : Nat) :
    rlThreadStep (rlThreadStep .start s key limit window now).1
        (rlThreadStep .start s key limit window now).2 key limit window now
      = (.finished (checkAndIncrement s key limit window now).2.1
          (checkAndIncrement s key limit window now).2.2,
         (checkAndIncrement s key limit window now).1) := by
  simp only [rlThreadStep, checkAndIncrement]
  split <;> simp

/-- C7 counterexample: `CheckAndIncrement` is a separate `GET` followed by
a check and a pipelined `INCR`/`EXPIRE`, not one atomic unit.  In the
interleaving where both callers issue their `GET` before either
increments (limit 1, fresh key), both read the under-limit count 0 and
both are allowed — whereas the serialized execution allows exactly one.
This is the race the claim says can never happen. -/
theorem c7_counterexample :
    -- interleaved: GET₁, GET₂, INCR₁, INCR₂ — both callers allowed
    (let a1 := rlThreadStep .start [] "phone:x" 1 600 0
     let a2 := rlThreadStep .start a1.2 "phone:x" 1 600 0
     let a3 := rlThreadStep a1.1 a2.2 "phone:x" 1 600 0
     let a4 := rlThreadStep a2.1 a3.2 "phone:x" 1 600 0
     a3.1 = .finished true 1 ∧ a4.1 = .finished true 1)
    -- serialized from the same state: the second caller is rejected
    ∧ (checkAndIncrement (checkAndIncrement [] "phone:x" 1 600 0).1
        "phone:x" 1 600 0).2.1 = false := by
  decide

/-- C7 amended: executed serially, `CheckAndIncrement` is correct — a
pre-increment count at or above the limit is rejected with the store
unchanged, and an under-limit caller is allowed with the count moved to
`pre + 1`; but the operation is two separate store commands, so
concurrent callers can interleave between its read and its increment
(see the counterexample race). -/
theorem c7_check_and_increment_serialized (s : CounterStore) (key : String)
    (limit window now : Nat) :
    (counterRead s ("rate_limit:" ++ key) now ≥ limit →
      checkAndIncrement s key limit window now
        = (s, false, counterRead s ("rate_limit:" ++ key) now))
    ∧ (counterRead s ("rate_limit:" ++ key) now < limit →
      checkAndIncrement s key limit window now
        = (counterIncrExpire s ("rate_limit:" ++ key) window now, true,
           counterRead s ("rate_limit:" ++ key) now + 1)) := by
  constructor
  · intro h
    simp [checkAndIncrement, h]
  · intro h
    simp [checkAndIncrement, Nat.not_le.mpr h]

/-- Witness for C7's amended theorem: a key at count 1 with limit 1 is
rejected without change; a fresh key with limit 1 is allowed at count 1. -/
theorem c7_check_and_increment_serialized_witness :
    checkAndIncrement [("rate_limit:phone:x", ⟨1, 9⟩)] "phone:x" 1 600 0
      = ([("rate_limit:phone:x", ⟨1, 9⟩)], false, 1)
    ∧ checkAndIncrement [] "phone:x" 1 600 0
      = ([("rate_limit:phone:x", ⟨1, 600⟩)], true, 1) := by
  constructor
  · exact (c7_check_and_increment_serialized
      [("rate_limit:phone:x", ⟨1, 9⟩)] "phone:x" 1 600 0).1 (by decide)
  · have h := (c7_check_and_increment_serialized [] "phone:x" 1 600 0).2 (by decide)
    rw [h]
    decide

/-! ## C6 -/

/-- The `phone:`-prefixed rate-limit key is never empty. -/
theorem phonePrefix_ne (raw : String) : ("phone:" ++ raw) ≠ "" := by
  intro h
  have := congrArg String.length h
  simp [String.length_append] at this
  exact absurd this.1 (by decide)

/-- A raw string that parses as a phone number is non-empty. -/
theorem newPhone_raw_ne {raw p : String} (h : NewPhoneNumber raw = some p) : raw ≠ "" := by
  intro hc
  rw [hc] at h
  have hnone : NewPhoneNumber "" = none := by decide
  rw [hnone] at h
  exact Option.noConfusion h

/-- An absent counter key reads as 0. -/
theorem counterRead_of_find_none {s : CounterStore} {k : String} {t : Nat}
    (h : s.find? (fun kv => kv.1 = k) = none) : counterRead s k t = 0 := by
  simp [counterRead, h]

/-- Reading a counter after its increment pipeline, within the freshly
set window, sees the incremented value. -/
theorem counterRead_incr_same (s : CounterStore) (k : String) (window t t' : Nat)
    (h : t' < t + window) :
    counterRead (counterIncrExpire s k window t) k t' = counterRead s k t + 1 := by
  simp [counterIncrExpire, counterRead, List.find?_cons, h]

/-- One send-OTP request through the middleware while the phone's counter
is under the limit 3: the counter is incremented and the use case runs to
success (valid phone, no client session id, non-empty generated code). -/
theorem pipeline_allowed_step (sys : Sys) (cfg : Cfg) (window t n : Nat)
    (fresh : SendFresh) (raw p : String)
    (hphone : NewPhoneNumber raw = some p)
    (hcount : counterRead sys.counters ("rate_limit:" ++ ("phone:" ++ raw)) t = n)
    (hn : n < 3) (hcode : fresh.otpCode ≠ "") :
    sendOtpPipeline sys ⟨raw, ""⟩ 3 window cfg t fresh =
      ({ sys with
          counters := counterIncrExpire sys.counters ("rate_limit:" ++ ("phone:" ++ raw)) window t,
          otps := otpSet sys.otps (otpRedisKey p) fresh.sessionId
            (.bcrypt fresh.salt (min cfg.cost 8) fresh.otpCode) cfg.otpTTL t },
       .handled (.ok ⟨"OTP sent successfully", fresh.sessionId⟩)) := by
  have hraw : raw ≠ "" := newPhone_raw_ne hphone
  have hps : phoneToString p = p := newPhone_toString_self hphone
  have hpne : p ≠ "" := newPhone_ne_empty hphone
  simp only [sendOtpPipeline, otpRateLimitKeyFunc]
  rw [if_pos hraw, if_neg (phonePrefix_ne raw)]
  simp only [checkAndIncrement, hcount, Nat.not_le.mpr hn, ite_false,
    if_neg (Nat.not_le.mpr hn)]
  simp only [if_true, sendOtpExecute, hphone, hashOTP, hcode, consoleSendOTP, hps, hpne,
    ite_false, ite_true, ne_eq]
  simp [hpne, hcode]

/-- One send-OTP request through the middleware when the phone's counter
already meets the limit 3: rejected with a 429, the store untouched, the
use case never reached. -/
theorem pipeline_rejected_step (sys : Sys) (cfg : Cfg) (window t n : Nat)
    (fresh : SendFresh) (raw : String) (hraw : raw ≠ "")
    (hcount : counterRead sys.counters ("rate_limit:" ++ ("phone:" ++ raw)) t = n)
    (hn : n ≥ 3) :
    sendOtpPipeline sys ⟨raw, ""⟩ 3 window cfg t fresh = (sys, .rateLimited n) := by
  simp only [sendOtpPipeline, otpRateLimitKeyFunc]
  rw [if_pos hraw, if_neg (phonePrefix_ne raw)]
  simp only [checkAndIncrement, hcount, if_pos hn]
  simp

/-- C6: with limit 3, four serialized send-OTP requests for one phone,
all inside the first request's window, starting with no counter for the
phone: the first three succeed and the fourth is rejected with the
`RATE_LIMIT_ERROR` (HTTP 429) response, without incrementing the counter
further (the store after call 4 equals the store after call 3; the gate
increments on each allowed call and leaves the count at 3). -/
theorem c6_rate_limit_boundary (sys : Sys) (cfg : Cfg) (window : Nat)
    (t1 t2 t3 t4 : Nat) (f1 f2 f3 f4 : SendFresh) (raw p : String)
    (hphone : NewPhoneNumber raw = some p)
    (hfind : sys.counters.find? (fun kv => kv.1 = "rate_limit:" ++ ("phone:" ++ raw)) = none)
    (h12 : t1 ≤ t2) (h23 : t2 ≤ t3) (h34 : t3 ≤ t4) (hw : t4 < t1 + window)
    (hc1 : f1.otpCode ≠ "") (hc2 : f2.otpCode ≠ "") (hc3 : f3.otpCode ≠ "") :
    (sendOtpPipeline sys ⟨raw, ""⟩ 3 window cfg t1 f1).2
      = .handled (.ok ⟨"OTP sent successfully", f1.sessionId⟩)
    ∧ (sendOtpPipeline (sendOtpPipeline sys ⟨raw, ""⟩ 3 window cfg t1 f1).1
        ⟨raw, ""⟩ 3 window cfg t2 f2).2
      = .handled (.ok ⟨"OTP sent successfully", f2.sessionId⟩)
    ∧ (sendOtpPipeline (sendOtpPipeline (sendOtpPipeline sys ⟨raw, ""⟩ 3 window cfg t1 f1).1
        ⟨raw, ""⟩ 3 window cfg t2 f2).1 ⟨raw, ""⟩ 3 window cfg t3 f3).2
      = .handled (.ok ⟨"OTP sent successfully", f3.sessionId⟩)
    ∧ (sendOtpPipeline (sendOtpPipeline (sendOtpPipeline (sendOtpPipeline sys
        ⟨raw, ""⟩ 3 window cfg t1 f1).1 ⟨raw, ""⟩ 3 window cfg t2 f2).1
        ⟨raw, ""⟩ 3 window cfg t3 f3).1 ⟨raw, ""⟩ 3 window cfg t4 f4).2
      = .rateLimited 3
    ∧ (sendOtpPipeline (sendOtpPipeline (sendOtpPipeline (sendOtpPipeline sys
        ⟨raw, ""⟩ 3 window cfg t1 f1).1 ⟨raw, ""⟩ 3 window cfg t2 f2).1
        ⟨raw, ""⟩ 3 window cfg t3 f3).1 ⟨raw, ""⟩ 3 window cfg t4 f4).1.counters
      = (sendOtpPipeline (sendOtpPipeline (sendOtpPipeline sys
        ⟨raw, ""⟩ 3 window cfg t1 f1).1 ⟨raw, ""⟩ 3 window cfg t2 f2).1
        ⟨raw, ""⟩ 3 window cfg t3 f3).1.counters := by
  have hraw : raw ≠ "" := newPhone_raw_ne hphone
  set rk := "rate_limit:" ++ ("phone:" ++ raw) with hrk
  have hr0 : counterRead sys.counters rk t1 = 0 := counterRead_of_find_none hfind
  have e1 := pipeline_allowed_step sys cfg window t1 0 f1 raw p hphone hr0 (by omega) hc1
  rw [e1]
  have hr1 : counterRead (counterIncrExpire sys.counters rk window t1) rk t2 = 1 := by
    rw [counterRead_incr_same sys.counters rk window t1 t2 (by omega), hr0]
  have e2 := pipeline_allowed_step
    ({ sys with
       counters := counterIncrExpire sys.counters rk window t1,
       otps := otpSet sys.otps (otpRedisKey p) f1.sessionId
         (.bcrypt f1.salt (min cfg.cost 8) f1.otpCode) cfg.otpTTL t1 })
    cfg window t2 1 f2 raw p hphone hr1 (by omega) hc2
  rw [e2]
  have hr2 : counterRead (counterIncrExpire (counterIncrExpire sys.counters rk window t1)
      rk window t2) rk t3 = 2 := by
    rw [counterRead_incr_same _ rk window t2 t3 (by omega), hr1]
  have e3 := pipeline_allowed_step
    ({ sys with
       counters := counterIncrExpire (counterIncrExpire sys.counters rk window t1) rk window t2,
       otps := otpSet (otpSet sys.otps (otpRedisKey p) f1.sessionId
           (.bcrypt f1.salt (min cfg.cost 8) f1.otpCode) cfg.otpTTL t1)
         (otpRedisKey p) f2.sessionId
         (.bcrypt f2.salt (min cfg.cost 8) f2.otpCode) cfg.otpTTL t2 })
    cfg window t3 2 f3 raw p hphone hr2 (by omega) hc3
  rw [e3]
  have hr3 : counterRead (counterIncrExpire (counterIncrExpire (counterIncrExpire
      sys.counters rk window t1) rk window t2) rk window t3) rk t4 = 3 := by
    rw [counterRead_incr_same _ rk window t3 t4 (by omega), hr2]
  have e4 := pipeline_rejected_step
    ({ sys with
       counters := counterIncrExpire (counterIncrExpire (counterIncrExpire
         sys.counters rk window t1) rk window t2) rk window t3,
       otps := otpSet (otpSet (otpSet sys.otps (otpRedisKey p) f1.sessionId
             (.bcrypt f1.salt (min cfg.cost 8) f1.otpCode) cfg.otpTTL t1)
           (otpRedisKey p) f2.sessionId
           (.bcrypt f2.salt (min cfg.cost 8) f2.otpCode) cfg.otpTTL t2)
         (otpRedisKey p) f3.sessionId
         (.bcrypt f3.salt (min cfg.cost 8) f3.otpCode) cfg.otpTTL t3 })
    cfg window t4 3 f4 raw hraw hr3 (by omega)
  rw [e4]
  exact ⟨rfl, rfl, rfl, rfl, rfl⟩

/-- Fresh values for the concrete rate-limit runs. -/
def sf1 : SendFresh := ⟨sid64, "123456", 3⟩

def sf2 : SendFresh := ⟨sid64, "234567", 4⟩

def sf3 : SendFresh := ⟨sid64, "345678", 5⟩

def sf4 : SendFresh := ⟨sid64, "456789", 6⟩

/-- Witness for C6: on the empty state, the first call succeeds and the
fourth is rejected at count 3. -/
theorem c6_rate_limit_boundary_witness :
    (sendOtpPipeline ⟨[], [], [], []⟩ ⟨"09123456789", ""⟩ 3 600 cfg0 1 sf1).2
      = .handled (.ok ⟨"OTP sent successfully", sf1.sessionId⟩)
    ∧ (sendOtpPipeline (sendOtpPipeline (sendOtpPipeline (sendOtpPipeline ⟨[], [], [], []⟩
        ⟨"09123456789", ""⟩ 3 600 cfg0 1 sf1).1 ⟨"09123456789", ""⟩ 3 600 cfg0 2 sf2).1
        ⟨"09123456789", ""⟩ 3 600 cfg0 3 sf3).1 ⟨"09123456789", ""⟩ 3 600 cfg0 4 sf4).2
      = .rateLimited 3 := by
  have h := c6_rate_limit_boundary ⟨[], [], [], []⟩ cfg0 600 1 2 3 4 sf1 sf2 sf3 sf4
    "09123456789" "+989123456789" (by decide) (by decide)
    (by omega) (by omega) (by omega) (by omega) (by decide) (by decide) (by decide)
  exact ⟨h.1, h.2.2.2.1⟩

/-! ## C10 -/

/-- A digit is not whitespace. -/
theorem digit_not_space {c : Char} (h : isDigitChar c = true) : isSpaceChar c = false := by
  unfold isSpaceChar
  by_contra hc
  simp only [Bool.not_eq_false, Bool.or_eq_true, beq_iff_eq] at hc
  rcases hc with ((h1 | h1) | h1) | h1 <;> subst h1 <;> exact absurd h (by decide)

/-- `TrimSpace` leaves a whitespace-free string unchanged. -/
theorem trimChars_eq_self {l : List Char} (h : ∀ c ∈ l, isSpaceChar c = false) :
    trimChars l = l := by
  unfold trimChars
  have h1 : l.dropWhile isSpaceChar = l := by
    rw [List.dropWhile_eq_self_iff]
    intro hl
    simpa using h _ (l.get_mem 0 hl)
  rw [h1]
  have h2 : l.reverse.dropWhile isSpaceChar = l.reverse := by
    rw [List.dropWhile_eq_self_iff]
    intro hl
    have hm := List.get_mem l.reverse 0 hl
    simpa using h _ (List.mem_reverse.mp hm)
  rw [h2, List.reverse_reverse]

/-- C10 counterexample: the local and international forms of one number
normalise to the same canonical `PhoneNumber`, yet the send-OTP
rate-limit middleware keys its counter by the *raw* request-body string
(`OtpRateLimit`'s `KeyFunc`), so the two forms of the same number use two
different rate-limit keys — the rate-limit storage key is not derived
from the canonical form, contradicting the claim. -/
theorem c10_counterexample :
    NewPhoneNumber "09123456789" = some "+989123456789"
    ∧ NewPhoneNumber "+989123456789" = some "+989123456789"
    ∧ otpRateLimitKeyFunc "09123456789" = "phone:09123456789"
    ∧ otpRateLimitKeyFunc "+989123456789" = "phone:+989123456789"
    ∧ ("phone:09123456789" : String) ≠ "phone:+989123456789" := by
  decide

/-- C10 amended: (a) normalisation is canonical — for any 9-digit
subscriber tail, the local form `09<tail>` and the international form
`+989<tail>` construct the same `PhoneNumber`, and that value is a fixed
point; (b) the OTP challenge storage key is `otp:<canonical form>` for
every constructed phone number; (c) but the rate-limit counter key of the
send-OTP middleware is `phone:<raw body string>`, not the canonical
form. -/
theorem c10_canonical_phone_keys (ds : List Char) (hds : ds.length = 9)
    (hall : ds.all isDigitChar = true) :
    NewPhoneNumber ⟨'0' :: '9' :: ds⟩ = some ⟨'+' :: '9' :: '8' :: '9' :: ds⟩
    ∧ NewPhoneNumber ⟨'+' :: '9' :: '8' :: '9' :: ds⟩ = some ⟨'+' :: '9' :: '8' :: '9' :: ds⟩
    ∧ (∀ raw p, NewPhoneNumber raw = some p → otpRedisKey (phoneToString p) = "otp:" ++ p)
    ∧ (∀ raw, raw ≠ "" → otpRateLimitKeyFunc raw = "phone:" ++ raw) := by
  have hsp : ∀ c ∈ ds, isSpaceChar c = false := by
    intro c hc
    exact digit_not_space (by simpa using List.all_eq_true.mp hall c hc)
  have hloc : trimChars ('0' :: '9' :: ds) = '0' :: '9' :: ds := by
    apply trimChars_eq_self
    intro c hc
    rcases hc with _ | ⟨_, hc⟩
    · decide
    · rcases hc with _ | ⟨_, hc⟩
      · decide
      · exact hsp c hc
  have hint : trimChars ('+' :: '9' :: '8' :: '9' :: ds) = '+' :: '9' :: '8' :: '9' :: ds := by
    apply trimChars_eq_self
    intro c hc
    rcases hc with _ | ⟨_, _ | ⟨_, _ | ⟨_, _ | ⟨_, hc⟩⟩⟩⟩
    · decide
    · decide
    · decide
    · decide
    · exact hsp c hc
  have hval : validatePhoneChars ('0' :: '9' :: ds) = true := by
    simp [validatePhoneChars, matchLocal, hds, hall]
  have hval2 : validatePhoneChars ('+' :: '9' :: '8' :: '9' :: ds) = true := by
    simp [validatePhoneChars, intlAfterPlus, tailNineDigits, hds, hall]
    exact ⟨by decide, by decide⟩
  refine ⟨?_, ?_, ?_, ?_⟩
  · simp only [NewPhoneNumber, newPhoneChars, String.toList, hloc, hval]
    simp
  · simp only [NewPhoneNumber, newPhoneChars, String.toList, hint, hval2]
    simp
  · intro raw p hp
    rw [newPhone_toString_self hp]
    rfl
  · intro raw hraw
    simp [otpRateLimitKeyFunc, hraw]

/-- Witness for C10's amended theorem on the example number. -/
theorem c10_canonical_phone_keys_witness :
    NewPhoneNumber "09123456789" = some "+989123456789"
    ∧ otpRedisKey (phoneToString "+989123456789") = "otp:" ++ "+989123456789"
    ∧ otpRateLimitKeyFunc "09123456789" = "phone:" ++ "09123456789" := by
  have h := c10_canonical_phone_keys ("123456789".toList) (by decide) (by decide)
  exact ⟨h.1, h.2.2.1 "09123456789" "+989123456789" h.1,
         h.2.2.2 "09123456789" (by decide)⟩

end OtpAuth
